import Mathlib

/-!
Verification development for the text-to-SQL service.

The JavaScript sources are shallowly embedded as pure Lean functions.
External effects are passed in explicitly:
  * the database catalog rows read by `getTableSchema` become a
    `List CatalogRow` argument;
  * the outcome of `EXPLAIN <sql>` becomes an oracle
    `explain : String -> Option String` (`none` = the statement planned
    successfully, `some msg` = the database raised `msg`);
  * the language model's raw reply becomes a `String` argument (or an
    oracle `String -> String` applied to the built prompt).
JavaScript string primitives (`includes`, `startsWith`, `replace`,
`split`, `trim`, `toLowerCase`) are re-implemented over `List Char`;
lower-casing and trimming are modelled on the ASCII range, which covers
every string manipulated here.
-/

/-- Is `pat` a prefix of `s`? (Boolean, on character lists.) -/
def isPrefOf : List Char → List Char → Bool
  | [], _ => true
  | _ :: _, [] => false
  | a :: pa, b :: pb => a == b && isPrefOf pa pb

/-- Does `pat` occur as a contiguous substring of `s`?  Mirrors
JavaScript `s.includes(pat)`. -/
def containsL (pat : List Char) : List Char → Bool
  | [] => pat.isEmpty
  | c :: rest => isPrefOf pat (c :: rest) || containsL pat rest

/-- Fuel-driven worker for `replaceAllL`; the fuel is the length of the
scanned list, which is enough because each step consumes at least one
character. -/
def replAux (pat repl : List Char) : Nat → List Char → List Char
  | _, [] => []
  | 0, s => s
  | n + 1, c :: rest =>
    if !pat.isEmpty && isPrefOf pat (c :: rest) then
      repl ++ replAux pat repl n (List.drop (pat.length - 1) rest)
    else
      c :: replAux pat repl n rest

/-- Replace every (non-overlapping, left-to-right) occurrence of `pat`
by `repl`.  Mirrors JavaScript `s.replace(/pat/g, repl)` for a literal
pattern. -/
def replaceAllL (pat repl s : List Char) : List Char :=
  replAux pat repl s.length s

/-- The suffix of `s` that follows the first occurrence of `pat`
(`none` when `pat` does not occur).  Mirrors capturing `([\s\S]*)` after
a literal pattern in a JavaScript regular expression. -/
def afterFirstL (pat : List Char) : List Char → Option (List Char)
  | [] => if pat.isEmpty then some [] else none
  | c :: rest =>
    if isPrefOf pat (c :: rest) then some (List.drop (pat.length - 1) rest)
    else afterFirstL pat rest

/-- ASCII lower-casing of one character (JavaScript `toLowerCase`
restricted to ASCII). -/
def lowerChar (c : Char) : Char :=
  if 'A' ≤ c ∧ c ≤ 'Z' then Char.ofNat (c.toNat + 32) else c

/-- ASCII lower-casing of a character list. -/
def asciiLowerL (s : List Char) : List Char := s.map lowerChar

/-- ASCII whitespace, the fragment of JavaScript's whitespace class that
occurs in the strings handled here. -/
def isWsCh (c : Char) : Bool :=
  c == ' ' || c == '\t' || c == '\n' || c == '\r' || c == '\x0b' || c == '\x0c'

/-- Strip whitespace from both ends (JavaScript `trim`). -/
def trimL (s : List Char) : List Char :=
  ((s.dropWhile isWsCh).reverse.dropWhile isWsCh).reverse

/-- Split on the newline character (JavaScript `split('\n')`). -/
def splitLinesL : List Char → List (List Char)
  | [] => [[]]
  | c :: rest =>
    if c == '\n' then [] :: splitLinesL rest
    else
      match splitLinesL rest with
      | [] => [[c]]
      | l :: ls => (c :: l) :: ls

/-- Join lines with the newline character (JavaScript `join('\n')`). -/
def joinLinesL : List (List Char) → List Char
  | [] => []
  | [l] => l
  | l :: ls => l ++ '\n' :: joinLinesL ls

/-- JavaScript `s.includes(pat)` on `String`. -/
def strIncludes (s pat : String) : Bool := containsL pat.toList s.toList

/-- JavaScript `s.startsWith(pat)` on `String`. -/
def strStartsWith (s pat : String) : Bool := isPrefOf pat.toList s.toList

/-- JavaScript `s.toLowerCase()` on `String` (ASCII range). -/
def asciiLower (s : String) : String := String.mk (asciiLowerL s.toList)

/-- JavaScript `s.trim()` on `String` (ASCII whitespace). -/
def strTrim (s : String) : String := String.mk (trimL s.toList)

/-- One row of the `information_schema` catalog query issued by
`getTableSchema`:
`SELECT t.table_name, c.column_name, c.data_type, c.is_nullable ...
 ORDER BY t.table_name, c.ordinal_position`. -/
structure CatalogRow where
  table_name : String
  column_name : String
  data_type : String
  is_nullable : String
  deriving DecidableEq

/-- One column entry produced by `getTableSchema`
(`{ name: column_name, type: data_type, nullable: is_nullable === 'YES' }`). -/
structure Column where
  name : String
  type : String
  nullable : Bool
  deriving DecidableEq

/-- One table entry produced by `getTableSchema`
(`{ name: table_name, columns: [...] }`). -/
structure TableSchema where
  name : String
  columns : List Column
  deriving DecidableEq

/-- The column record built from one catalog row. -/
def mkCol (r : CatalogRow) : Column :=
  ⟨r.column_name, r.data_type, r.is_nullable == "YES"⟩

/-- One step of the grouping loop of `getTableSchema`: if an entry with
this row's table name already exists, push the column onto it, else
append a fresh entry (JavaScript object insertion order). -/
def addRow : List TableSchema → CatalogRow → List TableSchema
  | [], r => [⟨r.table_name, [mkCol r]⟩]
  | t :: ts, r =>
    if t.name == r.table_name then ⟨t.name, t.columns ++ [mkCol r]⟩ :: ts
    else t :: addRow ts r

/-- `getTableSchema` (identical in the pattern-matching and Gemini
files): group the ordered catalog rows into one `TableSchema` per
table, preserving row order inside each table's column array.  The
catalog rows themselves are the function's input here; the database
delivers them ordered by table name, then column ordinal position. -/
def getTableSchema (rows : List CatalogRow) : List TableSchema :=
  rows.foldl addRow []

/-- Look up the columns recorded for table `n` (first entry with that
name). -/
def findTable : List TableSchema → String → Option (List Column)
  | [], _ => none
  | t :: ts, n => if t.name == n then some t.columns else findTable ts n

/-- Failure modes of the generators, mirroring the distinct
`throw new Error(...)` sites of the sources (the spec's names
`NoQueryProduced` / `MalformedResponse` / `ValidationFailed`):
`noQueryProduced e` = `LLM explanation: ${e}`;
`malformedResponse` = `Invalid response format from LLM or empty query.`;
`invalidSql e` = `Generated SQL is invalid: ${e}`;
`unknownQuestion m` = the pattern matcher's "I couldn't understand"
error. -/
inductive GenError where
  | noQueryProduced (expl : String)
  | malformedResponse
  | invalidSql (message : String)
  | unknownQuestion (message : String)
  deriving DecidableEq

/-- `{ isValid, error? }` as returned by every `validateSqlSyntax`. -/
structure ValidationResult where
  isValid : Bool
  error : Option String
  deriving DecidableEq

/-- The shared forbidden-keyword list of all three validators. -/
def forbiddenKeywords : List String :=
  [ "insert", "update", "delete", "drop", "create", "alter", "truncate",
    "grant", "revoke"]

/-- Keyword screen of the pattern-matching validator (and, identically,
of the Gemini one): first forbidden keyword `k` with
`normalizedSql.includes(' k ') || normalizedSql.startsWith('k ')`. -/
def findForbiddenSimple (sqlQuery : String) : Option String :=
  let normalizedSql := asciiLower sqlQuery
  forbiddenKeywords.find? fun keyword =>
    strIncludes normalizedSql ( " " ++ keyword ++ " ")
      || strStartsWith normalizedSql (keyword ++ " ")

/-- Keyword screen of the Vertex validator: first forbidden keyword `k`
with `normalizedSql.includes(' k ')` only — it has no
`startsWith` clause, unlike the other two validators. -/
def findForbiddenVertex (sqlQuery : String) : Option String :=
  let normalizedSql := asciiLower sqlQuery
  forbiddenKeywords.find? fun keyword =>
    strIncludes normalizedSql ( " " ++ keyword ++ " ")

/-- `validateSqlSyntax` of the pattern-matching file: keyword screen,
then `EXPLAIN <sql>` against the live database (the `explain` oracle). -/
def validateSqlSyntaxSimple (explain : String → Option String)
    (sqlQuery : String) : ValidationResult :=
  match findForbiddenSimple sqlQuery with
  | some _ => ⟨false, some "Query contains a forbidden write-operation keyword."⟩
  | none =>
    match explain sqlQuery with
    | none => ⟨true, none⟩
    | some msg => ⟨false, some msg⟩

/-- `validateSqlSyntax` of the Gemini file; its body is textually the
same two-stage gate as the pattern-matching one. -/
def validateSqlSyntaxAI (explain : String → Option String)
    (sqlQuery : String) : ValidationResult :=
  match findForbiddenSimple sqlQuery with
  | some _ => ⟨false, some "Query contains a forbidden write-operation keyword."⟩
  | none =>
    match explain sqlQuery with
    | none => ⟨true, none⟩
    | some msg => ⟨false, some msg⟩

/-- `validateSqlSyntax` of the Vertex file: same shape, but with the
weaker keyword screen `findForbiddenVertex`. -/
def validateSqlSyntaxVertex (explain : String → Option String)
    (sqlQuery : String) : ValidationResult :=
  match findForbiddenVertex sqlQuery with
  | some _ => ⟨false, some "Query contains a forbidden write-operation keyword."⟩
  | none =>
    match explain sqlQuery with
    | none => ⟨true, none⟩
    | some msg => ⟨false, some msg⟩

/-- The digit capture of `lowerQuestion.match(/(\d+)\s*(day|days)/)`:
leftmost position where a digit run, optional whitespace and then
`day` match; returns the digit run. -/
def daysMatchAt (s : List Char) : Option (List Char) :=
  let ds := s.takeWhile Char.isDigit
  if ds.isEmpty then none
  else
    let rest := (s.dropWhile Char.isDigit).dropWhile isWsCh
    if isPrefOf ( "day".toList) rest then some ds else none

/-- Left-to-right scan for `daysMatchAt`. -/
def findDays : List Char → Option (List Char)
  | [] => none
  | c :: rest =>
    match daysMatchAt (c :: rest) with
    | some ds => some ds
    | none => findDays rest

/-- `generateSimpleQuery(question, tables)` of the pattern-matching
file: lower-case the question and walk the keyword patterns in source
order; the final `else` throws the "couldn't understand" error that
lists the available tables. -/
def generateSimpleQuery (question : String) (tables : List TableSchema) :
    Except GenError String :=
  let lowerQuestion := asciiLower question
  if strIncludes lowerQuestion "count" && strIncludes lowerQuestion "users" then
    .ok (if strIncludes lowerQuestion "active" then
      "SELECT COUNT(*) as total FROM users WHERE status = 'active'"
    else "SELECT COUNT(*) as total FROM users")
  else if strIncludes lowerQuestion "count" && strIncludes lowerQuestion "products" then
    .ok "SELECT COUNT(*) as total FROM products"
  else if strIncludes lowerQuestion "count" && strIncludes lowerQuestion "orders" then
    .ok (if strIncludes lowerQuestion "completed" then
      "SELECT COUNT(*) as total FROM orders WHERE status = 'completed'"
    else "SELECT COUNT(*) as total FROM orders")
  else if strIncludes lowerQuestion "total revenue" || strIncludes lowerQuestion "total sales" then
    .ok "SELECT SUM(total_amount) as total_revenue FROM orders WHERE status = 'completed'"
  else if strIncludes lowerQuestion "users" then
    .ok ( "SELECT * FROM users"
      ++ (if strIncludes lowerQuestion "active" then " WHERE status = 'active'"
          else if strIncludes lowerQuestion "inactive" then " WHERE status = 'inactive'"
          else "")
      ++ " LIMIT 100")
  else if strIncludes lowerQuestion "products" then
    .ok ( "SELECT * FROM products"
      ++ (if strIncludes lowerQuestion "electronics" then " WHERE category = 'Electronics'"
          else if strIncludes lowerQuestion "furniture" then " WHERE category = 'Furniture'"
          else if strIncludes lowerQuestion "stationery" then " WHERE category = 'Stationery'"
          else "")
      ++ " LIMIT 100")
  else if strIncludes lowerQuestion "orders" then
    .ok ( "SELECT * FROM orders"
      ++ (if strIncludes lowerQuestion "completed" then " WHERE status = 'completed'"
          else if strIncludes lowerQuestion "pending" then " WHERE status = 'pending'"
          else if strIncludes lowerQuestion "cancelled" then " WHERE status = 'cancelled'"
          else "")
      ++ " LIMIT 100")
  else if strIncludes lowerQuestion "orders by user" || strIncludes lowerQuestion "user orders" then
    .ok "SELECT u.name, u.email, COUNT(o.id) as order_count, SUM(o.total_amount) as total_spent\n           FROM users u\n           LEFT JOIN orders o ON u.id = o.user_id\n           GROUP BY u.id, u.name, u.email\n           ORDER BY order_count DESC"
  else if strIncludes lowerQuestion "top products" || strIncludes lowerQuestion "popular products" then
    .ok "SELECT p.name, p.category, COUNT(oi.id) as times_ordered, SUM(oi.quantity) as total_quantity\n           FROM products p\n           JOIN order_items oi ON p.id = oi.product_id\n           GROUP BY p.id, p.name, p.category\n           ORDER BY times_ordered DESC\n           LIMIT 10"
  else if strIncludes lowerQuestion "recent orders" then
    let limit := match findDays (asciiLower question).toList with
      | some ds => String.mk ds
      | none => "30"
    .ok ( "SELECT * FROM orders\n           WHERE created_at >= NOW() - INTERVAL '"
      ++ limit ++ " days'\n           ORDER BY created_at DESC\n           LIMIT 100")
  else if strIncludes lowerQuestion "product" && strIncludes lowerQuestion "category" then
    .ok "SELECT category, COUNT(*) as product_count, AVG(price) as avg_price\n           FROM products\n           GROUP BY category\n           ORDER BY product_count DESC"
  else
    let tableNames := String.intercalate ", " (tables.map (·.name))
    .error (.unknownQuestion ( "I couldn't understand your question. Available tables: "
      ++ tableNames
      ++ ". Try queries like: \"Show all users\", \"Count products\", \"Total revenue\", \"Top products\", \"Orders by user\", \"Recent orders\""))

/-- `generateSqlFromQuestion` of the pattern-matching file: fetch the
schema, match the question, validate the candidate, throw on an invalid
result, return the SQL otherwise. -/
def generateSqlSimple (rows : List CatalogRow) (explain : String → Option String)
    (question : String) : Except GenError String :=
  let tables := getTableSchema rows
  match generateSimpleQuery question tables with
  | .error e => .error e
  | .ok sqlQuery =>
    let validationResult := validateSqlSyntaxSimple explain sqlQuery
    if validationResult.isValid then .ok sqlQuery
    else .error (.invalidSql (validationResult.error.getD ""))

/-- `buildPrompt(question, tables)` of the Gemini file. -/
def buildPrompt (question : String) (tables : List TableSchema) : String :=
  let schemaDescription := String.intercalate "\n\n" (tables.map fun table =>
    let columns := String.intercalate ", " (table.columns.map fun col =>
      col.name ++ " (" ++ col.type ++ (if col.nullable then ", nullable" else "") ++ ")")
    "Table: " ++ table.name ++ "\nColumns: " ++ columns)
  "You are a PostgreSQL expert. Generate a SQL query to answer the user's question.\n\nDATABASE SCHEMA:\n"
    ++ schemaDescription
    ++ "\n\nRULES:\n1. Return ONLY the SQL query, no explanations or markdown\n2. Use PostgreSQL syntax\n3. Only use SELECT statements (no INSERT, UPDATE, DELETE, DROP, etc.)\n4. Add LIMIT 100 to prevent returning too many rows\n5. Use proper JOINs when needed\n6. The query must be valid and executable\n\nUSER QUESTION:\n"
    ++ question
    ++ "\n\nSQL QUERY:"

/-- Strip a leading case-insensitive three-backtick `sql` fence marker
and its optional newline (`.replace(/^```sql\n?/i, '')`). -/
def stripFenceSqlOpen (s : List Char) : List Char :=
  if isPrefOf ( "```sql".toList) (asciiLowerL s) then
    match List.drop 6 s with
    | '\n' :: rest => rest
    | rest => rest
  else s

/-- Strip a leading three-backtick fence marker and its optional
newline (`.replace(/^```\n?/, '')`). -/
def stripFenceOpen (s : List Char) : List Char :=
  if isPrefOf ( "```".toList) s then
    match List.drop 3 s with
    | '\n' :: rest => rest
    | rest => rest
  else s

/-- Strip a trailing three-backtick fence marker together with an
optional newline right before it (`.replace(/\n?```$/, '')`). -/
def stripFenceEnd (s : List Char) : List Char :=
  let r := s.reverse
  if isPrefOf ( "```".toList) r then
    match List.drop 3 r with
    | '\n' :: rest => rest.reverse
    | rest => rest.reverse
  else s

/-- Does `cleanSqlResponse` keep this line?  It must trim to something
non-empty that is not a `--` comment and does not start (after
lower-casing) with `here` or `this query`. -/
def keepLine (line : List Char) : Bool :=
  let trimmed := String.mk (trimL line)
  !trimmed.isEmpty
    && !(strStartsWith trimmed "--")
    && !(strStartsWith (asciiLower trimmed) "here")
    && !(strStartsWith (asciiLower trimmed) "this query")

/-- `cleanSqlResponse(response)` of the Gemini file: trim, strip fence
markers, drop comment and conversational-prose lines, re-join and trim. -/
def cleanSqlResponse (response : String) : String :=
  let sql := trimL response.toList
  let sql := stripFenceSqlOpen sql
  let sql := stripFenceOpen sql
  let sql := stripFenceEnd sql
  let sql := trimL sql
  let sqlLines := (splitLinesL sql).filter keepLine
  String.mk (trimL (joinLinesL sqlLines))

/-- `generateSqlFromQuestion` of the Gemini file: fetch the schema,
build the prompt, call the model (the `model` oracle), clean its reply,
validate, throw on an invalid result, return the SQL otherwise. -/
def generateSqlAI (rows : List CatalogRow) (model : String → String)
    (explain : String → Option String) (question : String) :
    Except GenError String :=
  let tables := getTableSchema rows
  let prompt := buildPrompt question tables
  let sqlQuery := cleanSqlResponse (model prompt)
  let validationResult := validateSqlSyntaxAI explain sqlQuery
  if validationResult.isValid then .ok sqlQuery
  else .error (.invalidSql (validationResult.error.getD ""))

/-- The open tag of the Vertex response protocol. -/
def qOpenTag : List Char := "<@query@>".toList

/-- The close tag the Vertex parser strips and searches for
(`/<\/@query@>/`, i.e. the literal `</@query@>`). -/
def qCloseTag : List Char := "</@query@>".toList

/-- The explanation tag of the Vertex response protocol. -/
def eOpenTag : List Char := "<@explanation@>".toList

/-- The `while (sqlQuery.includes('<@query@>'))` loop of
`parseAndValidateResponse`: repeatedly delete every occurrence of the
open and close query tags.  Fuel-driven; `length + 1` units of fuel are
enough because each pass deletes at least one nine-character tag. -/
def stripQueryTags : Nat → List Char → List Char
  | 0, s => s
  | n + 1, s =>
    if containsL qOpenTag s then
      stripQueryTags n (replaceAllL qCloseTag [] (replaceAllL qOpenTag [] s))
    else s

/-- Does the response match `/<@query@>([\s\S]*?)<\/@query@>/`, i.e.
does a close tag occur after the end of the first open tag? -/
def hasQueryPair (s : List Char) : Bool :=
  match afterFirstL qOpenTag s with
  | none => false
  | some tail => containsL qCloseTag tail

/-- The parsing stage of `parseAndValidateResponse` (before
validation): strip the query tags, but keep the result only when the
response matched the open/close pair regex; on an empty result, fall
back to the text after `<@explanation@>` (failing with
`noQueryProduced` on its trimmed content when non-empty) or fail with
`malformedResponse`. -/
def parseResponse (response : String) : Except GenError String :=
  let r := response.toList
  let stripped := stripQueryTags (r.length + 1) r
  let sqlQuery := if hasQueryPair r then stripped else []
  if sqlQuery.isEmpty then
    match afterFirstL eOpenTag r with
    | some capture =>
      if capture.isEmpty then .error .malformedResponse
      else .error (.noQueryProduced (String.mk (trimL capture)))
    | none => .error .malformedResponse
  else .ok (String.mk sqlQuery)

/-- `parseAndValidateResponse(response)` of the Vertex file: parse,
then validate with the Vertex validator, throwing when the result is
invalid. -/
def parseAndValidateResponse (explain : String → Option String)
    (response : String) : Except GenError String :=
  match parseResponse response with
  | .error e => .error e
  | .ok sqlQuery =>
    let validationResult := validateSqlSyntaxVertex explain sqlQuery
    if validationResult.isValid then .ok sqlQuery
    else .error (.invalidSql (validationResult.error.getD ""))

/-- `generateSqlFromQuestion` of the Vertex file, from the model
response on: the retrieval and prompt stages only feed the model, so
the raw model reply is the input here; the returned SQL is whatever
`parseAndValidateResponse` accepts. -/
def generateSqlVertex (explain : String → Option String)
    (response : String) : Except GenError String :=
  parseAndValidateResponse explain response

/-- The three HTTP outcomes of the `/generate-sql` route handler:
`200 { sql }`, `400 { error }`, `500 { error }`. -/
inductive ApiResponse where
  | ok (sql : String)
  | badRequest (error : String)
  | serverError (error : String)
  deriving DecidableEq

/-- Is `req.body.question` falsy (absent or the empty string)? -/
def questionFalsy : Option String → Bool
  | none => true
  | some q => q.isEmpty

/-- The `POST /generate-sql` route handler: reject a falsy question
with a 400 before anything else runs; otherwise call the generator
(`gen`, the wired `generateSqlFromQuestion`) and map its outcome to a
200 or a 500. -/
def handleGenerateSql (gen : String → Except GenError String)
    (question : Option String) : ApiResponse :=
  match question with
  | none => .badRequest "Question is required."
  | some q =>
    if q.isEmpty then .badRequest "Question is required."
    else
      match gen q with
      | .ok sqlQuery => .ok sqlQuery
      | .error _ => .serverError "Failed to generate SQL query."

/-- Claim C2 (code bug): the keyword screens of the pattern-matching
and Gemini validators reject `UPDATE users SET x=1` and let
`SELECT * FROM updates` through, as the claim states; but the Vertex
validator's screen, which the claim also covers, checks only
space-surrounded occurrences and misses a forbidden keyword at the
start of the string, so `UPDATE users SET x=1` passes its keyword
stage, and with a database whose planner accepts the statement the
whole Vertex validator returns `isValid: true` for it. -/
theorem c2_vertex_keyword_screen_gap :
    findForbiddenSimple "UPDATE users SET x=1" = some "update"
    ∧ validateSqlSyntaxSimple (fun _ => none) "UPDATE users SET x=1"
        = ⟨false, some "Query contains a forbidden write-operation keyword."⟩
    ∧ findForbiddenSimple "SELECT * FROM updates" = none
    ∧ findForbiddenVertex "UPDATE users SET x=1" = none
    ∧ validateSqlSyntaxVertex (fun _ => none) "UPDATE users SET x=1" = ⟨true, none⟩ := by
  refine ⟨rfl, rfl, rfl, rfl, rfl⟩

/-- Claim C3, counterexample: on the exact raw response of the claim,
`<@query@>SELECT 1<@/query@><@explanation@></@explanation@>`, the
tagged-format parser does not return `SELECT 1`: the close tag it
recognizes is `</@query@>`, not `<@/query@>`, so no query pair matches
and the parser instead throws the explanation-shaped failure whose text
is the leftover `</@explanation@>`. -/
theorem c3_tagged_roundtrip_counterexample :
    parseResponse "<@query@>SELECT 1<@/query@><@explanation@></@explanation@>"
      = .error (.noQueryProduced "</@explanation@>")
    ∧ parseResponse "<@query@>SELECT 1<@/query@><@explanation@></@explanation@>"
      ≠ .ok "SELECT 1" := by
  refine ⟨rfl, fun h => ?_⟩
  rw [show parseResponse "<@query@>SELECT 1<@/query@><@explanation@></@explanation@>"
      = .error (.noQueryProduced "</@explanation@>") from rfl] at h
  exact Except.noConfusion h

/-- Claim C3 as amended: with the close tag the code actually
recognizes, `</@query@>`, the parser extracts exactly `SELECT 1` from
`<@query@>SELECT 1</@query@>`; and when the explanation section of the
claim is appended, the parser removes only the query tags and keeps the
explanation section inside the extracted text. -/
theorem c3_tagged_roundtrip_amended :
    parseResponse "<@query@>SELECT 1</@query@>" = .ok "SELECT 1"
    ∧ parseResponse "<@query@>SELECT 1</@query@><@explanation@></@explanation@>"
      = .ok "SELECT 1<@explanation@></@explanation@>" := by
  exact ⟨rfl, rfl⟩


/-- Claim C1: in each of the three generator pipelines, any SQL string
returned to the caller was passed to that pipeline's SQL validator and
the validator returned `isValid: true` (with the same database `EXPLAIN`
oracle the run used); whenever validation says otherwise the pipeline
throws, so no unvalidated SQL crosses the public boundary. -/
theorem c1_no_unvalidated_sql_crosses_boundary :
    (∀ rows explain question sql,
      generateSqlSimple rows explain question = .ok sql →
      (validateSqlSyntaxSimple explain sql).isValid = true)
    ∧ (∀ rows model explain question sql,
      generateSqlAI rows model explain question = .ok sql →
      (validateSqlSyntaxAI explain sql).isValid = true)
    ∧ (∀ explain response sql,
      generateSqlVertex explain response = .ok sql →
      (validateSqlSyntaxVertex explain sql).isValid = true) := by
  refine ⟨?_, ?_, ?_⟩
  · intro rows explain question sql h
    simp only [generateSqlSimple] at h
    split at h
    · exact Except.noConfusion h
    · split at h
      · next hv => exact Except.ok.inj h ▸ hv
      · exact Except.noConfusion h
  · intro rows model explain question sql h
    simp only [generateSqlAI] at h
    split at h
    · next hv => exact Except.ok.inj h ▸ hv
    · exact Except.noConfusion h
  · intro explain response sql h
    simp only [generateSqlVertex, parseAndValidateResponse] at h
    split at h
    · exact Except.noConfusion h
    · split at h
      · next hv => exact Except.ok.inj h ▸ hv
      · exact Except.noConfusion h

/-- Witness for claim C1, instantiated on the Vertex pipeline with a
succeeding `EXPLAIN` oracle and the response `<@query@>SELECT 1</@query@>`. -/
theorem c1_no_unvalidated_sql_crosses_boundary_witness :
    (validateSqlSyntaxVertex (fun _ => none) "SELECT 1").isValid = true :=
  c1_no_unvalidated_sql_crosses_boundary.2.2 (fun _ => none)
    "<@query@>SELECT 1</@query@>" "SELECT 1" rfl

/-- If `pat` does not occur in `s`, the scan for the text after its
first occurrence finds nothing. -/
theorem afterFirstL_eq_none (pat s : List Char)
    (h : containsL pat s = false) : afterFirstL pat s = none := by
  induction s with
  | nil =>
    simp only [containsL] at h
    simp [afterFirstL, h]
  | cons c rest ih =>
    simp only [containsL, Bool.or_eq_false_iff] at h
    simp [afterFirstL, h.1, ih h.2]

/-- Claim C4: whenever the raw model response contains no complete
query tag pair, the tagged-format parser never returns SQL; given only
an explanation tag with text `missing table X` it fails carrying
exactly that explanation text; and with neither a query tag nor an
explanation tag present it fails with the malformed-response error. -/
theorem c4_parser_fails_without_query_pair :
    (∀ response, hasQueryPair response.toList = false →
      ∀ sql, parseResponse response ≠ .ok sql)
    ∧ parseResponse "<@explanation@>missing table X"
        = .error (.noQueryProduced "missing table X")
    ∧ (∀ response, containsL qOpenTag response.toList = false →
        containsL eOpenTag response.toList = false →
        parseResponse response = .error .malformedResponse) := by
  refine ⟨?_, rfl, ?_⟩
  · intro response h sql hok
    simp only [parseResponse, h, Bool.false_eq_true, if_false, List.isEmpty_nil,
      if_true] at hok
    split at hok
    · split at hok
      · exact Except.noConfusion hok
      · exact Except.noConfusion hok
    · exact Except.noConfusion hok
  · intro response h1 h2
    have hq : afterFirstL qOpenTag response.data = none :=
      afterFirstL_eq_none _ _ h1
    have he : afterFirstL eOpenTag response.data = none :=
      afterFirstL_eq_none _ _ h2
    have hqp : hasQueryPair response.toList = false := by
      simp only [hasQueryPair, String.toList]
      rw [hq]
    simp only [parseResponse]
    rw [hqp]
    simp [he]

/-- Witness for claim C4: the pure-prose response `just some prose` has
no query pair and neither tag, so the parser fails with the
malformed-response error. -/
theorem c4_parser_fails_without_query_pair_witness :
    parseResponse "just some prose" = .error .malformedResponse :=
  c4_parser_fails_without_query_pair.2.2 "just some prose" (by decide) (by decide)

/-- Claim C5, counterexample: an all-prose Gemini reply cleans to the
empty string, yet the pipeline does not fail with the
malformed-response error — the empty string proceeds to validation and
the pipeline throws the validator's error instead (here the database's
`syntax error at end of input`). -/
theorem c5_empty_clean_counterexample :
    cleanSqlResponse "Here is the query:" = ""
    ∧ generateSqlAI [] (fun _ => "Here is the query:")
        (fun _ => some "syntax error at end of input") "list users"
      = .error (.invalidSql "syntax error at end of input")
    ∧ generateSqlAI [] (fun _ => "Here is the query:")
        (fun _ => some "syntax error at end of input") "list users"
      ≠ .error .malformedResponse := by
  refine ⟨rfl, rfl, fun h => ?_⟩
  rw [show generateSqlAI [] (fun _ => "Here is the query:")
      (fun _ => some "syntax error at end of input") "list users"
    = .error (.invalidSql "syntax error at end of input") from rfl] at h
  exact GenError.noConfusion (Except.error.inj h)

/-- Claim C5 as amended: the cleaner strips leading/trailing code-fence
markers and drops comment lines and lines starting with the prose
markers; but when the cleaned text is empty the Gemini pipeline does
not raise a malformed-response error — it passes the empty string to
the validator, and when the database's `EXPLAIN` rejects the empty
statement the pipeline throws that validation error, so no SQL is
returned. -/
theorem c5_fenced_cleaning_amended :
    cleanSqlResponse "```sql\nSELECT 1\n```" = "SELECT 1"
    ∧ cleanSqlResponse "-- comment\nHere you go\nSELECT 2" = "SELECT 2"
    ∧ (∀ rows model explain question e,
        cleanSqlResponse (model (buildPrompt question (getTableSchema rows))) = "" →
        explain "" = some e →
        generateSqlAI rows model explain question = .error (.invalidSql e)) := by
  refine ⟨rfl, rfl, ?_⟩
  intro rows model explain question e hclean hexp
  have hv : validateSqlSyntaxAI explain "" = ⟨false, some e⟩ := by
    unfold validateSqlSyntaxAI
    rw [show findForbiddenSimple "" = none from rfl]
    rw [hexp]
  unfold generateSqlAI
  simp only []
  rw [hclean, hv]
  rfl

/-- Witness for claim C5 as amended: the all-prose reply, cleaned to
empty, makes the pipeline throw the validator's error for the empty
statement. -/
theorem c5_fenced_cleaning_amended_witness :
    generateSqlAI [] (fun _ => "Here is your query")
      (fun _ => some "syntax error at end of input") "show users"
      = .error (.invalidSql "syntax error at end of input") :=
  c5_fenced_cleaning_amended.2.2 [] (fun _ => "Here is your query")
    (fun _ => some "syntax error at end of input") "show users"
    "syntax error at end of input" rfl rfl

/-- If the pattern matcher proposes `s` for `q` and the validator
accepts `s`, the pattern-matching pipeline returns `s`. -/
theorem generateSqlSimple_ok (rows : List CatalogRow)
    (explain : String → Option String) (q s : String)
    (hg : generateSimpleQuery q (getTableSchema rows) = .ok s)
    (hv : validateSqlSyntaxSimple explain s = ⟨true, none⟩) :
    generateSqlSimple rows explain q = .ok s := by
  unfold generateSqlSimple
  simp only []
  rw [hg]
  simp only [hv]
  simp

/-- Claim C6: the question `Count all products` is answered by the
pattern matcher with exactly `SELECT COUNT(*) as total FROM products`
(whatever the schema snapshot holds), that string contains no forbidden
standalone keyword, and when the database's `EXPLAIN` accepts it (as it
does over a schema containing a `products` table) the whole
pattern-matching pipeline returns exactly that string. -/
theorem c6_count_all_products_end_to_end :
    (∀ ts, generateSimpleQuery "Count all products" ts
      = .ok "SELECT COUNT(*) as total FROM products")
    ∧ findForbiddenSimple "SELECT COUNT(*) as total FROM products" = none
    ∧ (∀ rows explain,
        explain "SELECT COUNT(*) as total FROM products" = none →
        generateSqlSimple rows explain "Count all products"
          = .ok "SELECT COUNT(*) as total FROM products") := by
  refine ⟨fun ts => rfl, rfl, ?_⟩
  intro rows explain hexp
  apply generateSqlSimple_ok
  · rfl
  · unfold validateSqlSyntaxSimple
    rw [show findForbiddenSimple "SELECT COUNT(*) as total FROM products" = none from rfl]
    rw [hexp]

/-- Witness for claim C6, with an `EXPLAIN` oracle that accepts every
statement (a database containing the `products` table). -/
theorem c6_count_all_products_end_to_end_witness :
    generateSqlSimple [] (fun _ => none) "Count all products"
      = .ok "SELECT COUNT(*) as total FROM products" :=
  c6_count_all_products_end_to_end.2.2 [] (fun _ => none) rfl

/-- Claim C7: the pattern-matching path is deterministic — two runs on
the identical question, the same schema snapshot and the same database
behaviour return byte-identical SQL. -/
theorem c7_pattern_path_deterministic (rows : List CatalogRow)
    (explain : String → Option String) (question : String) (s₁ s₂ : String)
    (h₁ : generateSqlSimple rows explain question = .ok s₁)
    (h₂ : generateSqlSimple rows explain question = .ok s₂) :
    s₁ = s₂ :=
  Except.ok.inj (h₁.symm.trans h₂)

/-- Witness for claim C7 on the question `Count all products`. -/
theorem c7_pattern_path_deterministic_witness :
    ("SELECT COUNT(*) as total FROM products" : String)
      = "SELECT COUNT(*) as total FROM products" :=
  c7_pattern_path_deterministic [] (fun _ => none) "Count all products"
    "SELECT COUNT(*) as total FROM products"
    "SELECT COUNT(*) as total FROM products" rfl rfl

/-- Claim C8: the `/generate-sql` handler rejects a missing question
and the empty question with the 400 error before anything else runs;
on any falsy question its behaviour does not depend on the wired
generator at all, i.e. the generator is never invoked. -/
theorem c8_empty_question_rejected :
    (∀ gen, handleGenerateSql gen none = .badRequest "Question is required.")
    ∧ (∀ gen, handleGenerateSql gen (some "") = .badRequest "Question is required.")
    ∧ (∀ gen gen' question, questionFalsy question = true →
        handleGenerateSql gen question = handleGenerateSql gen' question) := by
  refine ⟨fun gen => rfl, fun gen => rfl, ?_⟩
  intro gen gen' question h
  cases question with
  | none => rfl
  | some q =>
    simp only [questionFalsy] at h
    simp [handleGenerateSql, h]

/-- Witness for claim C8: on the empty question two handlers wired to
generators with opposite outcomes behave identically. -/
theorem c8_empty_question_rejected_witness :
    handleGenerateSql (fun _ => .ok "SELECT 1") (some "")
      = handleGenerateSql (fun _ => .error .malformedResponse) (some "") :=
  c8_empty_question_rejected.2.2 (fun _ => .ok "SELECT 1")
    (fun _ => .error .malformedResponse) (some "") rfl

/-- Claim C10: any question whose lowercased text contains both `count`
and `users` takes the count branch — the result is the aggregate count
over `users`, carrying the `WHERE status = 'active'` suffix exactly
when the question also contains `active` — and is never one of the
row-listing `SELECT * FROM users ... LIMIT 100` queries. -/
theorem c10_count_users_precedence (question : String) (ts : List TableSchema)
    (h1 : strIncludes (asciiLower question) "count" = true)
    (h2 : strIncludes (asciiLower question) "users" = true) :
    generateSimpleQuery question ts
      = .ok (if strIncludes (asciiLower question) "active" = true then
          "SELECT COUNT(*) as total FROM users WHERE status = 'active'"
        else "SELECT COUNT(*) as total FROM users")
    ∧ (∀ s, generateSimpleQuery question ts = .ok s →
        s ≠ "SELECT * FROM users LIMIT 100"
        ∧ s ≠ "SELECT * FROM users WHERE status = 'active' LIMIT 100"
        ∧ s ≠ "SELECT * FROM users WHERE status = 'inactive' LIMIT 100") := by
  have hmain : generateSimpleQuery question ts
      = .ok (if strIncludes (asciiLower question) "active" = true then
          "SELECT COUNT(*) as total FROM users WHERE status = 'active'"
        else "SELECT COUNT(*) as total FROM users") := by
    unfold generateSimpleQuery
    simp only []
    rw [if_pos (show (strIncludes (asciiLower question) "count"
        && strIncludes (asciiLower question) "users") = true by rw [h1, h2]; rfl)]
  refine ⟨hmain, ?_⟩
  intro s hs
  have hs' : s = (if strIncludes (asciiLower question) "active" = true then
      "SELECT COUNT(*) as total FROM users WHERE status = 'active'"
    else "SELECT COUNT(*) as total FROM users") :=
    (Except.ok.inj (hmain.symm.trans hs)).symm
  by_cases ha : strIncludes (asciiLower question) "active" = true
  · rw [if_pos ha] at hs'
    subst hs'
    exact ⟨by decide, by decide, by decide⟩
  · rw [if_neg ha] at hs'
    subst hs'
    exact ⟨by decide, by decide, by decide⟩

/-- Witness for claim C10 on the question `count active users`. -/
theorem c10_count_users_precedence_witness :
    generateSimpleQuery "count active users" []
      = .ok "SELECT COUNT(*) as total FROM users WHERE status = 'active'" := by
  rw [(c10_count_users_precedence "count active users" [] (by decide) (by decide)).1]
  rfl

/-- Pushing a row appends its column to the first entry carrying the
row's table name (creating the entry if absent). -/
theorem findTable_addRow_self (acc : List TableSchema) (r : CatalogRow) :
    findTable (addRow acc r) r.table_name
      = some ((findTable acc r.table_name).getD [] ++ [mkCol r]) := by
  induction acc with
  | nil => simp [addRow, findTable]
  | cons t ts ih =>
    by_cases hb : (t.name == r.table_name) = true
    · simp [addRow, findTable, hb]
    · simp [addRow, findTable, hb, ih]

/-- Pushing a row leaves every other table's entry unchanged. -/
theorem findTable_addRow_ne (acc : List TableSchema) (r : CatalogRow)
    (n : String) (h : (n == r.table_name) = false) :
    findTable (addRow acc r) n = findTable acc n := by
  have h' : (r.table_name == n) = false := by
    rw [beq_eq_false_iff_ne] at h ⊢
    exact fun e => h e.symm
  induction acc with
  | nil => simp [addRow, findTable, h']
  | cons t ts ih =>
    by_cases hb : (t.name == r.table_name) = true
    · have ht : t.name = r.table_name := eq_of_beq hb
      have hne : r.table_name ≠ n := beq_eq_false_iff_ne.mp h'
      simp [addRow, findTable, hb, ht, hne]
    · simp [addRow, findTable, hb, ih]

/-- Folding the catalog rows into an accumulator extends each table's
column list by exactly the rows carrying that table's name, in row
order. -/
theorem findTable_foldl (rows : List CatalogRow) :
    ∀ (acc : List TableSchema) (n : String),
    findTable (List.foldl addRow acc rows) n =
      match findTable acc n with
      | some cols => some (cols ++ (rows.filter fun r => r.table_name == n).map mkCol)
      | none =>
        if (rows.filter fun r => r.table_name == n) = [] then none
        else some ((rows.filter fun r => r.table_name == n).map mkCol) := by
  induction rows with
  | nil =>
    intro acc n
    cases h : findTable acc n <;> simp [h]
  | cons r rows ih =>
    intro acc n
    rw [List.foldl_cons, ih (addRow acc r) n]
    by_cases hb : (r.table_name == n) = true
    · have hn : r.table_name = n := eq_of_beq hb
      subst hn
      rw [findTable_addRow_self acc r]
      cases hacc : findTable acc r.table_name with
      | some cols => simp [hacc, List.filter_cons, List.append_assoc]
      | none => simp [hacc, List.filter_cons]
    · have hb' : (n == r.table_name) = false := by
        rw [Bool.not_eq_true] at hb
        rw [beq_eq_false_iff_ne] at hb ⊢
        exact fun e => hb e.symm
      rw [findTable_addRow_ne acc r n hb']
      have hbf : (r.table_name == n) = false := by rwa [Bool.not_eq_true] at hb
      have hfil : (List.filter (fun r' => r'.table_name == n) (r :: rows))
          = List.filter (fun r' => r'.table_name == n) rows := by
        simp [List.filter_cons, hbf]
      rw [hfil]

/-- The table names present after pushing a row are the previous names
plus the row's table name. -/
theorem mem_map_name_addRow (acc : List TableSchema) (r : CatalogRow) (n : String) :
    n ∈ (addRow acc r).map TableSchema.name
      ↔ n ∈ acc.map TableSchema.name ∨ n = r.table_name := by
  induction acc with
  | nil => simp [addRow]
  | cons t ts ih =>
    by_cases hb : (t.name == r.table_name) = true
    · have ht : t.name = r.table_name := eq_of_beq hb
      rw [show addRow (t :: ts) r = ⟨t.name, t.columns ++ [mkCol r]⟩ :: ts by
        simp [addRow, hb]]
      simp only [List.map_cons, List.mem_cons]
      rw [ht]
      tauto
    · have hbf : (t.name == r.table_name) = false := by
        rwa [Bool.not_eq_true] at hb
      rw [show addRow (t :: ts) r = t :: addRow ts r by simp [addRow, hbf]]
      simp only [List.map_cons, List.mem_cons]
      rw [ih]
      tauto

/-- Pushing a row never duplicates a table name. -/
theorem nodup_map_name_addRow (acc : List TableSchema) (r : CatalogRow)
    (h : (acc.map TableSchema.name).Nodup) :
    ((addRow acc r).map TableSchema.name).Nodup := by
  induction acc with
  | nil => simp [addRow]
  | cons t ts ih =>
    simp only [List.map_cons, List.nodup_cons] at h
    by_cases hb : (t.name == r.table_name) = true
    · rw [show addRow (t :: ts) r = ⟨t.name, t.columns ++ [mkCol r]⟩ :: ts by
        simp [addRow, hb]]
      rw [List.map_cons, List.nodup_cons]
      exact ⟨fun hin => h.1 hin, h.2⟩
    · have hbf : (t.name == r.table_name) = false := by
        rwa [Bool.not_eq_true] at hb
      have ht : t.name ≠ r.table_name := beq_eq_false_iff_ne.mp hbf
      rw [show addRow (t :: ts) r = t :: addRow ts r by simp [addRow, hbf]]
      rw [List.map_cons, List.nodup_cons]
      refine ⟨?_, ih h.2⟩
      rw [mem_map_name_addRow]
      rintro (hin | heq)
      · exact h.1 hin
      · exact ht heq

/-- Folding catalog rows preserves distinctness of table names. -/
theorem nodup_map_name_foldl (rows : List CatalogRow) :
    ∀ acc : List TableSchema, (acc.map TableSchema.name).Nodup →
    ((List.foldl addRow acc rows).map TableSchema.name).Nodup := by
  induction rows with
  | nil => intro acc h; simpa using h
  | cons r rows ih =>
    intro acc h
    rw [List.foldl_cons]
    exact ih _ (nodup_map_name_addRow _ _ h)

/-- With distinct table names, lookup of a member entry's name returns
that entry's columns. -/
theorem findTable_eq_of_mem (l : List TableSchema) (t : TableSchema)
    (hnd : (l.map TableSchema.name).Nodup) (ht : t ∈ l) :
    findTable l t.name = some t.columns := by
  induction l with
  | nil => cases ht
  | cons u us ih =>
    simp only [List.map_cons, List.nodup_cons] at hnd
    rcases List.mem_cons.mp ht with h | h
    · subst h
      simp [findTable]
    · have hne : (u.name == t.name) = false := by
        rw [beq_eq_false_iff_ne]
        intro e
        apply hnd.1
        rw [e]
        exact List.mem_map_of_mem TableSchema.name h
      simp [findTable, hne, ih hnd.2 h]

/-- Claim C9: `getTableSchema` groups the ordered catalog rows into one
entry per base table — the lookup of any table name returns exactly the
column records (`name`/`type`/`nullable` from `column_name`,
`data_type`, `is_nullable === 'YES'`) of the catalog rows carrying that
name, in catalog-row order (the catalog orders them by table then
column ordinal position), table names are never duplicated, and every
produced entry's column array equals the row-order image of its
table's rows. -/
theorem c9_fetch_schema_grouping :
    (∀ rows n, findTable (getTableSchema rows) n =
      (if (rows.filter fun r => r.table_name == n) = [] then none
       else some ((rows.filter fun r => r.table_name == n).map mkCol)))
    ∧ (∀ rows, ((getTableSchema rows).map TableSchema.name).Nodup)
    ∧ (∀ rows t, t ∈ getTableSchema rows →
        t.columns = (rows.filter fun r => r.table_name == t.name).map mkCol) := by
  have hfind : ∀ (rows : List CatalogRow) (n : String),
      findTable (getTableSchema rows) n =
        (if (rows.filter fun r => r.table_name == n) = [] then none
         else some ((rows.filter fun r => r.table_name == n).map mkCol)) := by
    intro rows n
    have h := findTable_foldl rows [] n
    simpa [getTableSchema, findTable] using h
  have hnd : ∀ rows : List CatalogRow,
      ((getTableSchema rows).map TableSchema.name).Nodup := fun rows =>
    nodup_map_name_foldl rows [] (by simp)
  refine ⟨hfind, hnd, ?_⟩
  intro rows t ht
  have h1 := findTable_eq_of_mem _ t (hnd rows) ht
  rw [hfind rows t.name] at h1
  by_cases hf : (rows.filter fun r => r.table_name == t.name) = []
  · rw [if_pos hf] at h1
    exact Option.noConfusion h1
  · rw [if_neg hf] at h1
    exact (Option.some.inj h1).symm

/-- Witness for claim C9 on a one-row catalog for a `users` table. -/
theorem c9_fetch_schema_grouping_witness :
    (⟨"users", [⟨"id", "integer", false⟩]⟩ : TableSchema).columns
      = (([⟨"users", "id", "integer", "NO"⟩] : List CatalogRow).filter
          fun r => r.table_name == (⟨"users", [⟨"id", "integer", false⟩]⟩ : TableSchema).name).map mkCol :=
  c9_fetch_schema_grouping.2.2 [⟨"users", "id", "integer", "NO"⟩]
    ⟨"users", [⟨"id", "integer", false⟩]⟩ (by decide)
